import Mathlib

/-!
Shallow embedding of the claudesdk-go repository (a Go SDK wrapping the Claude
CLI subprocess) and proofs about the claims of its specification.

Conventions of the embedding:
* Go `*StreamMessage` pointers become `Option StreamMessage` (`none` = nil).
* Go `map[string]any` values (tool inputs, todo items) become association
  lists over a JSON value type; Go maps have unique keys, so first-match
  lookup agrees with map lookup.
* Go `float64` fields (costs) are only ever copied, never computed with, so
  they are modelled as exact rationals.
* Go `string` indexing in the one truncation site is byte-based; the lines
  involved are treated character-wise (`String.take`), which agrees on ASCII.
-/

/-- JSON values, the model of Go's `any` after `encoding/json` unmarshalling:
`map[string]any` becomes `obj`, `[]any` becomes `arr`, `string` becomes `str`. -/
inductive JsonValue where
  | null
  | bool (b : Bool)
  | num (q : Rat)
  | str (s : String)
  | arr (elems : List JsonValue)
  | obj (fields : List (String × JsonValue))

/-- Association-list lookup, the model of Go map indexing `m[key]`. -/
def lookupJson (m : List (String × JsonValue)) (key : String) : Option JsonValue :=
  (m.find? (fun kv => kv.1 == key)).map (fun kv => kv.2)

/-- Embeds `getString` (extract.go): `m[key].(string)` with `""` on failure. -/
def getString (m : List (String × JsonValue)) (key : String) : String :=
  match lookupJson m key with
  | some (JsonValue.str v) => v
  | _ => ""

/-- Embeds `Usage` (message.go): token accounting attached to result messages. -/
structure Usage where
  inputTokens : Int := 0
  outputTokens : Int := 0
  cacheCreationInputTokens : Int := 0
  cacheReadInputTokens : Int := 0
deriving DecidableEq

/-- Embeds `ContentBlock` (message.go): one element of a message's content list.
The Go field `Type` is rendered `type`; `Input` is `nil` ↦ `none`. -/
structure ContentBlock where
  type : String := ""
  text : String := ""
  thinking : String := ""
  name : String := ""
  id : String := ""
  input : Option (List (String × JsonValue)) := none
  toolUseID : String := ""
  content : String := ""

/-- Embeds `MessageContent` (message.go). -/
structure MessageContent where
  role : String := ""
  content : List ContentBlock := []

/-- Embeds `StreamMessage` (message.go). Fields never read by any embedded
operation (`UUID`, `ParentToolUseID`, `StructuredOutput`, `IsErrorResult`,
`PermissionMode`, `Tools`) are omitted; all others keep their Go zero values
as defaults. -/
structure StreamMessage where
  type : String := ""
  subtype : String := ""
  sessionID : String := ""
  model : String := ""
  message : Option MessageContent := none
  text : String := ""
  result : String := ""
  costUSD : Rat := 0
  totalCost : Rat := 0
  durationMS : Int := 0
  durationAPIMS : Int := 0
  numTurns : Int := 0
  usage : Option Usage := none

/-- Embeds `TodoItem` (message.go). -/
structure TodoItem where
  id : String := ""
  content : String := ""
  status : String := ""
  activeForm : String := ""
  priority : String := ""
deriving DecidableEq

/-- The blocks iterated by the Go pattern
`if msg.Message != nil { for _, c := range msg.Message.Content }`:
a nil `Message` contributes no iterations. -/
def contentOf : Option MessageContent → List ContentBlock
  | none => []
  | some mc => mc.content

/-- The scan inside `ExtractText` (extract.go:22-28): first content block with
`Type == "text"` and non-empty `Text`, returned early. -/
def firstTextIn : List ContentBlock → Option String
  | [] => none
  | c :: rest =>
    if c.type = "text" ∧ c.text ≠ "" then some c.text else firstTextIn rest

/-- Embeds `ExtractText` (extract.go:11-36). -/
def ExtractText (msg : Option StreamMessage) : String :=
  match msg with
  | none => ""
  | some msg =>
    if msg.text ≠ "" then msg.text
    else
      match firstTextIn (contentOf msg.message) with
      | some t => t
      | none =>
        if msg.type = "result" ∧ msg.result ≠ "" then msg.result else ""

/-- The separator logic of `ExtractAllText` (extract.go:59-62):
`if result != "" { result += "\n" }; result += piece`. -/
def appendWithSep (acc piece : String) : String :=
  if acc = "" then piece else acc ++ "\n" ++ piece

/-- The loop body of `ExtractAllText` over content blocks (extract.go:57-64). -/
def allTextStep (acc : String) (c : ContentBlock) : String :=
  if c.type = "text" ∧ c.text ≠ "" then appendWithSep acc c.text else acc

/-- Embeds `ExtractAllText` (extract.go:43-76). -/
def ExtractAllText (msg : Option StreamMessage) : String :=
  match msg with
  | none => ""
  | some msg =>
    let r := if msg.text ≠ "" then msg.text else ""
    let r := (contentOf msg.message).foldl allTextStep r
    if msg.type = "result" ∧ msg.result ≠ "" then appendWithSep r msg.result else r

/-- Embeds `GetAllToolCalls` (extract.go:197-209): the append-loop over
content blocks keeping `tool_use` blocks with non-empty names. -/
def GetAllToolCalls (msg : Option StreamMessage) : List ContentBlock :=
  match msg with
  | none => []
  | some msg =>
    (contentOf msg.message).foldl
      (fun acc c => if c.type = "tool_use" ∧ c.name ≠ "" then acc ++ [c] else acc) []

/-- The per-item loop of `ExtractTodos` (extract.go:140-152): each element is
type-asserted to a map (`continue` on failure) and destructured via `getString`. -/
def parseTodos : List JsonValue → List TodoItem
  | [] => []
  | t :: rest =>
    match t with
    | JsonValue.obj tm =>
      { id := getString tm "id"
        content := getString tm "content"
        status := getString tm "status"
        activeForm := getString tm "activeForm"
        priority := getString tm "priority" } :: parseTodos rest
    | _ => parseTodos rest

/-- The block scan of `ExtractTodos` (extract.go:126-138): first `tool_use`
block named `TodoWrite` with a non-nil input whose `todos` entry is a list;
every failed check is a `continue`. -/
def findTodoBlock : List ContentBlock → Option (List JsonValue)
  | [] => none
  | c :: rest =>
    if c.type ≠ "tool_use" ∨ c.name ≠ "TodoWrite" then findTodoBlock rest
    else
      match c.input with
      | none => findTodoBlock rest
      | some input =>
        match lookupJson input "todos" with
        | some (JsonValue.arr todosRaw) => some todosRaw
        | _ => findTodoBlock rest

/-- Embeds `ExtractTodos` (extract.go:121-157); the Go nil result is `[]`. -/
def ExtractTodos (msg : Option StreamMessage) : List TodoItem :=
  match msg with
  | none => []
  | some msg =>
    match findTodoBlock (contentOf msg.message) with
    | some todosRaw => parseTodos todosRaw
    | none => []

/-- Modelled from the spec: the prioritized list of text sources of a message
("a direct text field, then the first `text` content block, then (for
result-type messages) the final result field"), used to compare `ExtractText`
against the spec's priority order. -/
def textSourcesSpec (msg : StreamMessage) : List String :=
  (if msg.text ≠ "" then [msg.text] else []) ++
    ((contentOf msg.message).filter
      (fun c => decide (c.type = "text" ∧ c.text ≠ ""))).map (fun c => c.text) ++
    (if msg.type = "result" ∧ msg.result ≠ "" then [msg.result] else [])

/-! ### Lemmas about the text-extraction loops -/

/-- The early-return scan of `ExtractText` finds the head of the filtered
block texts. -/
theorem firstTextIn_eq_head (blocks : List ContentBlock) :
    firstTextIn blocks =
      ((blocks.filter (fun c => decide (c.type = "text" ∧ c.text ≠ ""))).map
        (fun c => c.text)).head? := by
  induction blocks with
  | nil => rfl
  | cons c rest ih =>
    by_cases h : c.type = "text" ∧ c.text ≠ ""
    · simp [firstTextIn, h, List.filter_cons]
    · simp [firstTextIn, h, List.filter_cons, ih]

/-- One separator-append step only ever extends its accumulator on the right. -/
theorem appendWithSep_extend (acc p : String) : ∃ t, appendWithSep acc p = acc ++ t := by
  by_cases h : acc = ""
  · exact ⟨p, by simp [appendWithSep, h]⟩
  · exact ⟨"\n" ++ p, by simp [appendWithSep, h, String.append_assoc]⟩

/-- The `ExtractAllText` block loop only ever extends its accumulator. -/
theorem foldl_allTextStep_extend (blocks : List ContentBlock) (acc : String) :
    ∃ t, blocks.foldl allTextStep acc = acc ++ t := by
  induction blocks generalizing acc with
  | nil => exact ⟨"", by simp⟩
  | cons c rest ih =>
    by_cases h : c.type = "text" ∧ c.text ≠ ""
    · obtain ⟨t1, h1⟩ := appendWithSep_extend acc c.text
      obtain ⟨t2, h2⟩ := ih (appendWithSep acc c.text)
      rw [h1] at h2
      exact ⟨t1 ++ t2, by
        simp only [List.foldl_cons, allTextStep, if_pos h, h1, h2, String.append_assoc]⟩
    · obtain ⟨t2, h2⟩ := ih acc
      exact ⟨t2, by simp [allTextStep, h, h2]⟩

/-- When no block matches, the `ExtractAllText` block loop is the identity. -/
theorem foldl_allTextStep_of_none (blocks : List ContentBlock) (acc : String)
    (h : firstTextIn blocks = none) : blocks.foldl allTextStep acc = acc := by
  induction blocks generalizing acc with
  | nil => rfl
  | cons c rest ih =>
    by_cases hc : c.type = "text" ∧ c.text ≠ ""
    · simp [firstTextIn, hc] at h
    · rw [firstTextIn, if_neg hc] at h
      simp [allTextStep, hc, ih _ h]

/-- Starting from an empty accumulator, the `ExtractAllText` block loop
produces a string beginning with the first matching block's text. -/
theorem foldl_allTextStep_first (blocks : List ContentBlock) (b : String)
    (h : firstTextIn blocks = some b) :
    ∃ t, blocks.foldl allTextStep "" = b ++ t := by
  induction blocks with
  | nil => simp [firstTextIn] at h
  | cons c rest ih =>
    by_cases hc : c.type = "text" ∧ c.text ≠ ""
    · rw [firstTextIn, if_pos hc] at h
      obtain rfl : c.text = b := Option.some.inj h
      obtain ⟨t, hT⟩ := foldl_allTextStep_extend rest (appendWithSep "" c.text)
      refine ⟨t, ?_⟩
      simp only [List.foldl_cons, allTextStep, if_pos hc, hT]
      simp [appendWithSep]
    · rw [firstTextIn, if_neg hc] at h
      obtain ⟨t, hT⟩ := ih h
      exact ⟨t, by simp [allTextStep, hc, hT]⟩

/-- C4: `ExtractText` returns the first non-empty source in priority order —
the direct text field, then the first `"text"` content block with non-empty
text, then (only for `"result"`-typed messages) the result field; it returns
`"direct"` on a message with both a direct text field `"direct"` and a content
block `{"type":"text","text":"from content"}`, and `""` for nil or
non-matching input. -/
theorem ExtractText_priority_order :
    ExtractText none = "" ∧
    (∀ msg : StreamMessage, ExtractText (some msg) = (textSourcesSpec msg).headD "") ∧
    ExtractText (some { text := "direct",
                        message := some { content :=
                          [{ type := "text", text := "from content" }] } }) =
      "direct" := by
  refine ⟨rfl, ?_, by decide⟩
  intro msg
  have h1 := firstTextIn_eq_head (contentOf msg.message)
  by_cases ht : msg.text ≠ ""
  · simp [ExtractText, textSourcesSpec, ht]
  · cases hL : (contentOf msg.message).filter
        (fun c => decide (c.type = "text" ∧ c.text ≠ "")) with
    | nil =>
      have h2 : firstTextIn (contentOf msg.message) = none := by
        rw [h1, hL]; rfl
      simp only [ExtractText, textSourcesSpec, if_neg ht, h2, hL, List.map_nil,
        List.nil_append]
      by_cases hres : msg.type = "result" ∧ msg.result ≠ ""
      · simp only [if_pos hres, List.headD_cons]
      · simp only [if_neg hres, List.headD_nil]
    | cons c cs =>
      have h2 : firstTextIn (contentOf msg.message) = some c.text := by
        rw [h1, hL]; rfl
      simp only [ExtractText, textSourcesSpec, if_neg ht, h2, hL, List.map_cons,
        List.nil_append, List.cons_append, List.headD_cons]

/-- C10: the single preferred source selected by `ExtractText` always appears
first in `ExtractAllText`'s newline-separated concatenation: for every message
(including nil), `ExtractText msg` is a prefix of `ExtractAllText msg`. -/
theorem ExtractText_prefix_of_ExtractAllText (msg : Option StreamMessage) :
    ∃ t, ExtractAllText msg = ExtractText msg ++ t := by
  match msg with
  | none => exact ⟨"", by simp [ExtractAllText, ExtractText]⟩
  | some m =>
    by_cases ht : m.text ≠ ""
    · obtain ⟨t1, h1⟩ := foldl_allTextStep_extend (contentOf m.message) m.text
      by_cases hres : m.type = "result" ∧ m.result ≠ ""
      · obtain ⟨t2, h2⟩ :=
          appendWithSep_extend ((contentOf m.message).foldl allTextStep m.text) m.result
        rw [h1] at h2
        exact ⟨t1 ++ t2, by
          simp [ExtractAllText, ExtractText, ht, hres, h1, h2, String.append_assoc]⟩
      · exact ⟨t1, by simp [ExtractAllText, ExtractText, ht, hres, h1]⟩
    · have ht' : m.text = "" := by simpa using ht
      cases hf : firstTextIn (contentOf m.message) with
      | none =>
        have hfold := foldl_allTextStep_of_none (contentOf m.message) "" hf
        by_cases hres : m.type = "result" ∧ m.result ≠ ""
        · exact ⟨"", by simp [ExtractAllText, ExtractText, ht', hf, hfold, hres, appendWithSep]⟩
        · exact ⟨"", by simp [ExtractAllText, ExtractText, ht', hf, hfold, hres]⟩
      | some b =>
        obtain ⟨t1, h1⟩ := foldl_allTextStep_first (contentOf m.message) b hf
        by_cases hres : m.type = "result" ∧ m.result ≠ ""
        · obtain ⟨t2, h2⟩ :=
            appendWithSep_extend ((contentOf m.message).foldl allTextStep "") m.result
          rw [h1] at h2
          exact ⟨t1 ++ t2, by
            simp [ExtractAllText, ExtractText, ht', hf, hres, h1, h2, String.append_assoc]⟩
        · exact ⟨t1, by simp [ExtractAllText, ExtractText, ht', hf, hres, h1]⟩

/-! ### C5: GetAllToolCalls -/

/-- An append-accumulating filter loop equals `List.filter`. -/
theorem foldl_filter_append {α : Type} (p : α → Prop) [DecidablePred p]
    (l : List α) (init : List α) :
    l.foldl (fun acc c => if p c then acc ++ [c] else acc) init
      = init ++ l.filter (fun c => decide (p c)) := by
  induction l generalizing init with
  | nil => simp
  | cons c rest ih =>
    by_cases h : p c
    · simp [h, ih, List.filter_cons]
    · simp [h, ih, List.filter_cons]

/-- An assistant message whose single content block is a `tool_use` block with
an empty name. -/
def emptyNameToolMsg : StreamMessage :=
  { type := "assistant",
    message := some { role := "assistant",
                      content := [{ type := "tool_use", name := "" }] } }

/-- C5 is false as stated: on an assistant message containing one `tool_use`
block whose `Name` is empty, `GetAllToolCalls` returns no blocks, while the
content array has one `tool_use`-typed block — the length equality of the
claim fails because the source additionally requires a non-empty name
(extract.go:204). -/
theorem GetAllToolCalls_count_mismatch :
    GetAllToolCalls (some emptyNameToolMsg) = [] ∧
    ((contentOf emptyNameToolMsg.message).filter
      (fun c => decide (c.type = "tool_use"))).length = 1 := by
  exact ⟨rfl, rfl⟩

/-- C5 (amended): for every message of type `"assistant"` with at least one
`tool_use` block, `GetAllToolCalls` returns exactly the `tool_use` blocks
with non-empty names, in source order (the filter of the content array), and
its length is the count of such blocks. -/
theorem GetAllToolCalls_order_and_count (msg : StreamMessage)
    (htype : msg.type = "assistant")
    (hhas : ∃ c, c ∈ contentOf msg.message ∧ c.type = "tool_use") :
    GetAllToolCalls (some msg)
      = (contentOf msg.message).filter
          (fun c => decide (c.type = "tool_use" ∧ c.name ≠ "")) ∧
    (GetAllToolCalls (some msg)).length
      = ((contentOf msg.message).filter
          (fun c => decide (c.type = "tool_use" ∧ c.name ≠ ""))).length := by
  have hmain : GetAllToolCalls (some msg)
      = (contentOf msg.message).filter
          (fun c => decide (c.type = "tool_use" ∧ c.name ≠ "")) := by
    have h := foldl_filter_append
      (fun c : ContentBlock => c.type = "tool_use" ∧ c.name ≠ "")
      (contentOf msg.message) []
    simpa [GetAllToolCalls] using h
  exact ⟨hmain, by rw [hmain]⟩

/-- An assistant message with one named `tool_use` block, used as the witness
input. -/
def namedToolMsg : StreamMessage :=
  { type := "assistant",
    message := some { role := "assistant",
                      content := [{ type := "tool_use", name := "Bash" }] } }

/-- Witness: the amended C5 applied to a concrete assistant message with one
named tool call. -/
theorem GetAllToolCalls_order_and_count_witness :
    GetAllToolCalls (some namedToolMsg)
      = (contentOf namedToolMsg.message).filter
          (fun c => decide (c.type = "tool_use" ∧ c.name ≠ "")) ∧
    (GetAllToolCalls (some namedToolMsg)).length
      = ((contentOf namedToolMsg.message).filter
          (fun c => decide (c.type = "tool_use" ∧ c.name ≠ ""))).length :=
  GetAllToolCalls_order_and_count namedToolMsg rfl
    ⟨{ type := "tool_use", name := "Bash" }, by simp [namedToolMsg, contentOf], rfl⟩

/-! ### C9: ExtractTodos -/

/-- `parseTodos` distributes over list append. -/
theorem parseTodos_append (l1 l2 : List JsonValue) :
    parseTodos (l1 ++ l2) = parseTodos l1 ++ parseTodos l2 := by
  induction l1 with
  | nil => rfl
  | cons t rest ih => cases t <;> simp [parseTodos, ih]

/-- A message whose TodoWrite call carries one todo entry that is an object
but has neither a `content` nor a `status` field. -/
def malformedTodoMsg : StreamMessage :=
  { type := "assistant",
    message := some
      { role := "assistant",
        content := [{ type := "tool_use", name := "TodoWrite",
                      input := some [("todos",
                        JsonValue.arr [JsonValue.obj [("id", JsonValue.str "x")]])] }] } }

/-- C9 is false as stated: an entry that is an object but has neither a
`content` nor a `status` string is not well-formed in the claim's sense, yet
`ExtractTodos` includes it (with empty-string fields) instead of skipping it —
the source only skips entries that fail the map type assertion
(extract.go:141-143). -/
theorem ExtractTodos_includes_malformed :
    ExtractTodos (some malformedTodoMsg)
      = [{ id := "x", content := "", status := "", activeForm := "", priority := "" }] ∧
    getString [("id", JsonValue.str "x")] "content" = "" ∧
    getString [("id", JsonValue.str "x")] "status" = "" := by
  exact ⟨rfl, rfl, rfl⟩

/-- C9 (amended): `ExtractTodos` skips exactly the entries that are not JSON
objects, silently and without aborting the extraction of the remaining
entries; entries that are objects are always included, with missing or
non-string fields (including `content` and `status`) mapped to the empty
string by `getString`. -/
theorem ExtractTodos_skips_nonobjects_only :
    (∀ pre post (bad : JsonValue), (∀ tm, bad ≠ JsonValue.obj tm) →
      parseTodos (pre ++ bad :: post) = parseTodos (pre ++ post)) ∧
    (∀ pre tm post,
      parseTodos (pre ++ JsonValue.obj tm :: post)
        = parseTodos pre ++
            ({ id := getString tm "id", content := getString tm "content",
               status := getString tm "status", activeForm := getString tm "activeForm",
               priority := getString tm "priority" } : TodoItem) :: parseTodos post) ∧
    (∀ msg todosRaw, findTodoBlock (contentOf msg.message) = some todosRaw →
      ExtractTodos (some msg) = parseTodos todosRaw) := by
  refine ⟨?_, ?_, ?_⟩
  · intro pre post bad hbad
    rw [parseTodos_append, parseTodos_append]
    congr 1
    cases bad with
    | obj tm => exact absurd rfl (hbad tm)
    | null => rfl
    | bool b => rfl
    | num q => rfl
    | str s => rfl
    | arr es => rfl
  · intro pre tm post
    rw [parseTodos_append]
    rfl
  · intro msg todosRaw h
    simp [ExtractTodos, h]

/-- Witness: the amended C9 applied at concrete inputs — a non-object entry
is dropped without aborting, and `ExtractTodos` extracts the todo list of
`malformedTodoMsg` through `parseTodos`. -/
theorem ExtractTodos_skips_nonobjects_only_witness :
    parseTodos [JsonValue.str "junk", JsonValue.obj [("id", JsonValue.str "x")]]
      = parseTodos [JsonValue.obj [("id", JsonValue.str "x")]] ∧
    ExtractTodos (some malformedTodoMsg)
      = parseTodos [JsonValue.obj [("id", JsonValue.str "x")]] :=
  ⟨ExtractTodos_skips_nonobjects_only.1 [] [JsonValue.obj [("id", JsonValue.str "x")]]
      (JsonValue.str "junk") (fun tm h => JsonValue.noConfusion h),
   ExtractTodos_skips_nonobjects_only.2.2 malformedTodoMsg
      [JsonValue.obj [("id", JsonValue.str "x")]] rfl⟩

/-! ### C2: Launcher.ReadMessage -/

/-- Errors of the embedded SDK: the sentinel errors of errors.go, the wrapper
errors (`ParseError`, `ExitError`, `StartError`), the session's synthetic
"buffer full" error (part_001:333), the error returned by a second
`exec.Cmd.Wait` call (modelled from the Go standard library: "exec: Wait was
already called"), and generic read errors. -/
inductive GoError where
  | cliNotFound
  | sessionTimeout
  | sessionClosed
  | alreadyStarted
  | notStarted
  | parseError (line : String) (cause : String)
  | exitError (code : Int) (stderr : String)
  | startError (cause : String)
  | waitAlreadyCalled
  | bufferFull
  | ioError (cause : String)
deriving DecidableEq

/-- The stdout scanner state of a started launcher: the remaining lines, and
the error that `bufio.Scanner.Err()` will report once the lines are exhausted
(`none` = clean EOF). -/
structure StreamState where
  lines : List String
  scanErr : Option GoError
deriving DecidableEq

/-- Embeds `Launcher.ReadMessage` (launcher.go:378-417) relative to a parse
oracle standing for `json.Unmarshal`. Returns the (message, error) pair that
the Go method returns together with the advanced scanner state; the hook
dispatch of lines 399-414 is side-effecting observability with no influence
on the returned value. -/
def ReadMessage (parse : String → Except String StreamMessage) :
    StreamState → (Option StreamMessage × Option GoError) × StreamState
  | ⟨[], err⟩ =>
    match err with
    | some e => ((none, some e), ⟨[], some e⟩)
    | none => ((none, none), ⟨[], none⟩)
  | ⟨line :: rest, err⟩ =>
    if line = "" then ReadMessage parse ⟨rest, err⟩
    else
      match parse line with
      | Except.ok m => ((some m, none), ⟨rest, err⟩)
      | Except.error cause =>
        ((none, some (GoError.parseError line cause)), ⟨rest, err⟩)
  termination_by s => s.lines.length
  decreasing_by simp

/-- Embeds `ParseError.Error` (errors.go:32-38): the display string carries
the cause and the offending line, truncated to 100 characters plus an
ellipsis when longer. -/
def parseErrorMessage (line cause : String) : String :=
  let truncated := if line.length > 100 then line.take 100 ++ "..." else line
  "claude: parse error: " ++ cause ++ " (line: " ++ truncated ++ ")"

/-- Empty lines are skipped transparently (launcher.go:387-390). -/
theorem ReadMessage_skips_empty (parse : String → Except String StreamMessage)
    (rest : List String) (err : Option GoError) :
    ReadMessage parse ⟨"" :: rest, err⟩ = ReadMessage parse ⟨rest, err⟩ := by
  rw [ReadMessage]
  simp

/-- The nil-message/nil-error result appears exactly at clean end of stream. -/
theorem ReadMessage_none_iff (parse : String → Except String StreamMessage)
    (s : StreamState) :
    (ReadMessage parse s).1 = (none, none) ↔
      ((∀ l ∈ s.lines, l = "") ∧ s.scanErr = none) := by
  obtain ⟨lines, err⟩ := s
  induction lines with
  | nil =>
    cases err with
    | none => simp [ReadMessage]
    | some e => simp [ReadMessage]
  | cons l rest ih =>
    by_cases hl : l = ""
    · subst hl
      rw [ReadMessage_skips_empty]
      simpa using ih
    · rw [ReadMessage, if_neg hl]
      cases hp : parse l with
      | ok m => simp [hl]
      | error cause => simp [hl]

/-- C2: on a started launcher, `ReadMessage` skips empty lines transparently
(they are never surfaced); it returns a nil message with a nil error exactly
when the stream has ended with no underlying read error; and on a line that
fails JSON parsing it returns a parse error carrying the offending line and
cause — displayed with the line truncated to 100 characters — while advancing
the stream so that subsequent lines can still be read. -/
theorem ReadMessage_contract :
    (∀ parse rest err,
      ReadMessage parse ⟨"" :: rest, err⟩ = ReadMessage parse ⟨rest, err⟩) ∧
    (∀ parse s, (ReadMessage parse s).1 = (none, none) ↔
      ((∀ l ∈ s.lines, l = "") ∧ s.scanErr = none)) ∧
    (∀ parse line cause rest err, line ≠ "" → parse line = Except.error cause →
      ReadMessage parse ⟨line :: rest, err⟩
        = ((none, some (GoError.parseError line cause)), ⟨rest, err⟩)) ∧
    (∀ line cause, 100 < line.length →
      parseErrorMessage line cause
        = "claude: parse error: " ++ cause ++ " (line: " ++
            (line.take 100 ++ "...") ++ ")") := by
  refine ⟨ReadMessage_skips_empty, ReadMessage_none_iff, ?_, ?_⟩
  · intro parse line cause rest err hline hparse
    rw [ReadMessage, if_neg hline, hparse]
  · intro line cause hlen
    simp [parseErrorMessage, hlen]

/-- A 101-character line, longer than the 100-character display truncation. -/
def longLine : String := String.mk (List.replicate 101 'a')

/-- Witness: C2 applied at concrete inputs — a failing parse on the line
`"x"` surfaces a parse error and advances the stream, and the display of a
101-character line is truncated. -/
theorem ReadMessage_contract_witness :
    ReadMessage (fun _ => Except.error "bad") ⟨["x"], none⟩
      = ((none, some (GoError.parseError "x" "bad")), ⟨[], none⟩) ∧
    parseErrorMessage longLine "bad"
      = "claude: parse error: " ++ "bad" ++ " (line: " ++
          (longLine.take 100 ++ "...") ++ ")" :=
  ⟨ReadMessage_contract.2.2.1 (fun _ => Except.error "bad") "x" "bad" [] none
      (by decide) rfl,
   ReadMessage_contract.2.2.2 longLine "bad" (by decide)⟩


/-! ### C6: buildArgs -/

/-- Embeds `LaunchOptions` (options.go), restricted to the fields `buildArgs`
reads plus `Verbose` (which `buildArgs` never reads) and `AdditionalArgs`.
The Go field `Continue` is rendered `continueFlag` (`continue` is a Lean
keyword). `agentsJSON`/`jsonSchemaJSON` stand for the `json.Marshal` output of
the `Agents` map / `JSONSchema` value, `none` for an empty map / nil schema —
`buildArgs` only tests emptiness and splices the marshalled text. -/
structure LaunchOptions where
  permissionMode : String := ""
  skipPermissions : Bool := false
  allowDangerouslySkipPermissions : Bool := false
  allowedTools : List String := []
  disallowedTools : List String := []
  permissionPromptTool : String := ""
  model : String := ""
  fallbackModel : String := ""
  maxBudgetUSD : Rat := 0
  betas : List String := []
  systemPrompt : String := ""
  systemPromptFile : String := ""
  appendSystemPrompt : String := ""
  appendSystemPromptFile : String := ""
  resume : String := ""
  continueFlag : Bool := false
  forkSession : Bool := false
  sessionID : String := ""
  noSessionPersistence : Bool := false
  maxTurns : Int := 0
  tools : List String := []
  agentsJSON : Option String := none
  disableSlashCommands : Bool := false
  jsonSchemaJSON : Option String := none
  includePartialMessages : Bool := false
  inputFormat : String := ""
  settingSources : List String := []
  settings : String := ""
  pluginDirs : List String := []
  addDirs : List String := []
  strictMCP : Bool := false
  debug : String := ""
  chrome : Option Bool := none
  verbose : Bool := false
  additionalArgs : List String := []

/-- Stands for `strconv.FormatFloat(v, 'f', 2, 64)` (launcher.go:115); no
claim depends on the rendered digits, only on the argument's position. -/
def formatBudget (q : Rat) : String := toString q

/-- Stands for `strconv.Itoa` (launcher.go:163). -/
def itoa (n : Int) : String := toString n

/-- The "Permission & Security" flag blocks (launcher.go:80-102), one list
element per `args = append(args, ...)` statement, in source order. -/
def permissionSegments (opts : LaunchOptions) : List (List String) :=
  [ (if opts.permissionMode ≠ "" then ["--permission-mode", opts.permissionMode]
     else if opts.skipPermissions then ["--dangerously-skip-permissions"] else []),
    (if opts.allowDangerouslySkipPermissions then
      ["--allow-dangerously-skip-permissions"] else []),
    (opts.allowedTools.map (fun t => ["--allowedTools", t])).flatten,
    (opts.disallowedTools.map (fun t => ["--disallowedTools", t])).flatten,
    (if opts.permissionPromptTool ≠ "" then
      ["--permission-prompt-tool", opts.permissionPromptTool] else []) ]

/-- The "Model & Budget" flag blocks (launcher.go:104-120). -/
def modelBudgetSegments (opts : LaunchOptions) : List (List String) :=
  [ (if opts.model ≠ "" then ["--model", opts.model] else []),
    (if opts.fallbackModel ≠ "" then ["--fallback-model", opts.fallbackModel] else []),
    (if opts.maxBudgetUSD > 0 then
      ["--max-budget-usd", formatBudget opts.maxBudgetUSD] else []),
    (if opts.betas ≠ [] then ["--betas", String.intercalate "," opts.betas] else []) ]

/-- The "System Prompt" flag blocks (launcher.go:122-136). -/
def systemPromptSegments (opts : LaunchOptions) : List (List String) :=
  [ (if opts.systemPrompt ≠ "" then ["--system-prompt", opts.systemPrompt]
     else if opts.systemPromptFile ≠ "" then
      ["--system-prompt-file", opts.systemPromptFile] else []),
    (if opts.appendSystemPrompt ≠ "" then
      ["--append-system-prompt", opts.appendSystemPrompt] else []),
    (if opts.appendSystemPromptFile ≠ "" then
      ["--append-system-prompt-file", opts.appendSystemPromptFile] else []) ]

/-- The "Session Management" flag blocks (launcher.go:138-158). -/
def sessionSegments (opts : LaunchOptions) : List (List String) :=
  [ (if opts.resume ≠ "" then ["--resume", opts.resume] else []),
    (if opts.continueFlag then ["--continue"] else []),
    (if opts.forkSession then ["--fork-session"] else []),
    (if opts.sessionID ≠ "" then ["--session-id", opts.sessionID] else []),
    (if opts.noSessionPersistence then ["--no-session-persistence"] else []) ]

/-- The "Limits" flag block (launcher.go:160-164). -/
def limitsSegments (opts : LaunchOptions) : List (List String) :=
  [ (if opts.maxTurns > 0 then ["--max-turns", itoa opts.maxTurns] else []) ]

/-- The "Tools & Agents" flag blocks (launcher.go:166-182). -/
def toolsAgentsSegments (opts : LaunchOptions) : List (List String) :=
  [ (if opts.tools ≠ [] then ["--tools", String.intercalate "," opts.tools] else []),
    (match opts.agentsJSON with | some j => ["--agents", j] | none => []),
    (if opts.disableSlashCommands then ["--disable-slash-commands"] else []) ]

/-- The "Input/Output" flag blocks (launcher.go:184-200). -/
def ioSegments (opts : LaunchOptions) : List (List String) :=
  [ (match opts.jsonSchemaJSON with | some j => ["--json-schema", j] | none => []),
    (if opts.includePartialMessages then ["--include-partial-messages"] else []),
    (if opts.inputFormat ≠ "" then ["--input-format", opts.inputFormat] else []) ]

/-- The "Configuration" flag blocks (launcher.go:202-218). -/
def configSegments (opts : LaunchOptions) : List (List String) :=
  [ (if opts.settingSources ≠ [] then
      ["--setting-sources", String.intercalate "," opts.settingSources] else []),
    (if opts.settings ≠ "" then ["--settings", opts.settings] else []),
    (opts.pluginDirs.map (fun dir => ["--plugin-dir", dir])).flatten,
    (opts.addDirs.map (fun dir => ["--add-dir", dir])).flatten ]

/-- The "MCP" flag blocks (launcher.go:220-228). -/
def mcpSegments (opts : LaunchOptions) (mcpConfigFile : String) : List (List String) :=
  [ (if mcpConfigFile ≠ "" then ["--mcp-config", mcpConfigFile] else []),
    (if opts.strictMCP then ["--strict-mcp-config"] else []) ]

/-- The "Debug" flag blocks (launcher.go:230-242). -/
def debugSegments (opts : LaunchOptions) : List (List String) :=
  [ (if opts.debug ≠ "" then ["--debug", opts.debug] else []),
    (match opts.chrome with
     | some true => ["--chrome"]
     | some false => ["--no-chrome"]
     | none => []) ]

/-- All option-dependent flag blocks of `buildArgs` (launcher.go:82-242), in
source order. -/
def optionSegments (opts : LaunchOptions) (mcpConfigFile : String) :
    List (List String) :=
  permissionSegments opts ++ modelBudgetSegments opts ++
    systemPromptSegments opts ++ sessionSegments opts ++ limitsSegments opts ++
    toolsAgentsSegments opts ++ ioSegments opts ++ configSegments opts ++
    mcpSegments opts mcpConfigFile ++ debugSegments opts

/-- Embeds `buildArgs` (launcher.go:72-252): the required flags first, then
every option-dependent block in source order (the join performs the same
sequential concatenation as the Go `append` statements), then
`AdditionalArgs`, then the prompt as the final positional argument. The Go
error paths (marshal failures) cannot arise here because the marshalled
texts are fields. -/
def buildArgs (prompt : String) (opts : LaunchOptions) (mcpConfigFile : String) :
    List String :=
  (["--print", "--output-format", "stream-json", "--verbose"] ::
      optionSegments opts mcpConfigFile).flatten
    ++ opts.additionalArgs ++ [prompt]

/-- C6: for every prompt and options value, the argument vector starts with
the forced flags `--print`, `--output-format stream-json`, `--verbose`
regardless of the caller's options (in particular `buildArgs` never reads the
`Verbose` field), and the prompt is the final positional element, after all
flags and all `AdditionalArgs`. -/
theorem buildArgs_forced_flags_and_prompt_last (prompt : String)
    (opts : LaunchOptions) (mcpConfigFile : String) :
    (∃ flags, buildArgs prompt opts mcpConfigFile
      = ["--print", "--output-format", "stream-json", "--verbose"] ++ flags ++
          opts.additionalArgs ++ [prompt]) ∧
    (∀ v : Bool, buildArgs prompt { opts with verbose := v } mcpConfigFile
      = buildArgs prompt opts mcpConfigFile) := by
  constructor
  · exact ⟨(optionSegments opts mcpConfigFile).flatten, by simp [buildArgs]⟩
  · intro v
    rfl

/-! ### C1: Session non-blocking channel delivery -/

/-- A buffered Go channel as seen by a non-blocking sender: the queued
elements and the buffer capacity. A `select`/`default` send succeeds exactly
when the buffer holds fewer than `cap` elements. -/
structure Chan (α : Type) where
  buf : List α
  cap : Nat

/-- A non-blocking channel send (`select { case ch <- x: default: }`): enqueue
when there is room, otherwise leave the channel unchanged. It is a total
function of the current state — completion never depends on a consumer. -/
def chanTrySend {α : Type} (c : Chan α) (x : α) : Chan α :=
  if c.buf.length < c.cap then { c with buf := c.buf ++ [x] } else c

/-- The three consumer-facing channels of a `Session` (part_001:198-208). -/
structure SessionChans where
  messages : Chan StreamMessage
  text : Chan String
  errors : Chan GoError

/-- Embeds `Session.sendError` (part_001:347-353): best-effort push, dropped
silently when the Errors buffer is full. -/
def Session.sendError (s : SessionChans) (e : GoError) : SessionChans :=
  { s with errors := chanTrySend s.errors e }

/-- Embeds `Session.sendText` (part_001:338-344): dropped silently when the
Text buffer is full. -/
def Session.sendText (s : SessionChans) (t : String) : SessionChans :=
  { s with text := chanTrySend s.text t }

/-- Embeds `Session.sendMessage` (part_001:328-335): deliver when the Messages
buffer has room; otherwise drop the message and push a synthetic "buffer full"
error to the Errors channel, itself best-effort. -/
def Session.sendMessage (s : SessionChans) (m : StreamMessage) : SessionChans :=
  if s.messages.buf.length < s.messages.cap then
    { s with messages := { s.messages with buf := s.messages.buf ++ [m] } }
  else
    Session.sendError s GoError.bufferFull

/-- C1: delivery never blocks. Every send is a total function of the channel
state whose result either appends the one value or leaves the buffer
unchanged (never waits for space); a full Messages buffer drops the message
and pushes a "buffer full" error to Errors best-effort; full Text or Errors
buffers drop silently. -/
theorem session_sends_never_block :
    (∀ s m, s.messages.buf.length < s.messages.cap →
      Session.sendMessage s m
        = { s with messages := { s.messages with buf := s.messages.buf ++ [m] } }) ∧
    (∀ s m, ¬ s.messages.buf.length < s.messages.cap →
      (Session.sendMessage s m).messages = s.messages ∧
      (Session.sendMessage s m).text = s.text ∧
      (Session.sendMessage s m).errors = chanTrySend s.errors GoError.bufferFull) ∧
    (∀ s t, ¬ s.text.buf.length < s.text.cap → Session.sendText s t = s) ∧
    (∀ s e, ¬ s.errors.buf.length < s.errors.cap → Session.sendError s e = s) ∧
    (∀ (α : Type) (c : Chan α) (x : α),
      (chanTrySend c x).buf = c.buf ++ [x] ∨ (chanTrySend c x).buf = c.buf) := by
  refine ⟨?_, ?_, ?_, ?_, ?_⟩
  · intro s m h
    simp [Session.sendMessage, h]
  · intro s m h
    simp [Session.sendMessage, Session.sendError, h]
  · intro s t h
    simp [Session.sendText, chanTrySend, h]
  · intro s e h
    simp [Session.sendError, chanTrySend, h]
  · intro α c x
    by_cases h : c.buf.length < c.cap
    · exact Or.inl (by simp [chanTrySend, h])
    · exact Or.inr (by simp [chanTrySend, h])

/-- A session channel state whose Messages and Text buffers are full
(capacity 0) while Errors has room. -/
def fullChans : SessionChans :=
  { messages := { buf := [], cap := 0 },
    text := { buf := [], cap := 0 },
    errors := { buf := [], cap := 10 } }

/-- Witness: C1 applied at a concrete state with a full Messages buffer — the
message is dropped, and the synthetic "buffer full" error lands in Errors. -/
theorem session_sends_never_block_witness :
    ((Session.sendMessage fullChans {}).messages = fullChans.messages ∧
     (Session.sendMessage fullChans {}).text = fullChans.text ∧
     (Session.sendMessage fullChans {}).errors
        = chanTrySend fullChans.errors GoError.bufferFull) ∧
    Session.sendText fullChans "t" = fullChans :=
  ⟨session_sends_never_block.2.1 fullChans {} (by decide),
   session_sends_never_block.2.2.1 fullChans "t" (by decide)⟩

/-! ### C8: Session.CurrentMetrics -/

/-- Embeds `SessionMetrics` (options.go:453-486). -/
structure SessionMetrics where
  costUSD : Rat := 0
  totalCostUSD : Rat := 0
  numTurns : Int := 0
  inputTokens : Int := 0
  outputTokens : Int := 0
  cacheCreationInputTokens : Int := 0
  cacheReadInputTokens : Int := 0
  durationMS : Int := 0
  durationAPIMS : Int := 0
  model : String := ""
  sessionID : String := ""
deriving DecidableEq

/-- Embeds `metricsFromMessage` (launcher.go:420-437). -/
def metricsFromMessage (msg : StreamMessage) : SessionMetrics :=
  let m : SessionMetrics :=
    { costUSD := msg.costUSD
      totalCostUSD := msg.totalCost
      numTurns := msg.numTurns
      durationMS := msg.durationMS
      durationAPIMS := msg.durationAPIMS
      model := msg.model
      sessionID := msg.sessionID }
  match msg.usage with
  | some u =>
    { m with inputTokens := u.inputTokens
             outputTokens := u.outputTokens
             cacheCreationInputTokens := u.cacheCreationInputTokens
             cacheReadInputTokens := u.cacheReadInputTokens }
  | none => m

/-- The metrics updates of one `readLoop` iteration (part_001:300-314): a
`"result"` message replaces the snapshot with `metricsFromMessage`; a
`"system"/"init"` message with a non-empty session id then overwrites the
snapshot's `SessionID` and `Model`. -/
def Session.metricsStep (metrics : SessionMetrics) (msg : StreamMessage) :
    SessionMetrics :=
  let metrics := if msg.type = "result" then metricsFromMessage msg else metrics
  if msg.type = "system" ∧ msg.subtype = "init" ∧ msg.sessionID ≠ "" then
    { metrics with sessionID := msg.sessionID, model := msg.model }
  else metrics

/-- The value `Session.CurrentMetrics` (part_001:397-401) returns after the
reader task has processed `observed`: the lock-protected `metrics` field,
zero-initialized at `NewSession` and updated by `metricsStep` per message. -/
def Session.CurrentMetrics (observed : List StreamMessage) : SessionMetrics :=
  observed.foldl Session.metricsStep {}

/-- A message leaves the metrics snapshot unchanged when it is neither a
result nor an id-bearing system-init message. -/
theorem metricsStep_neutral (acc : SessionMetrics) (m : StreamMessage)
    (h1 : m.type ≠ "result")
    (h2 : ¬(m.type = "system" ∧ m.subtype = "init" ∧ m.sessionID ≠ "")) :
    Session.metricsStep acc m = acc := by
  simp [Session.metricsStep, h1, h2]

/-- The metrics fold ignores a run of neutral messages. -/
theorem foldl_metricsStep_neutral (msgs : List StreamMessage)
    (acc : SessionMetrics)
    (h : ∀ m ∈ msgs, m.type ≠ "result" ∧
      ¬(m.type = "system" ∧ m.subtype = "init" ∧ m.sessionID ≠ "")) :
    msgs.foldl Session.metricsStep acc = acc := by
  induction msgs generalizing acc with
  | nil => rfl
  | cons m rest ih =>
    have hm := h m (List.mem_cons_self m rest)
    rw [List.foldl_cons, metricsStep_neutral acc m hm.1 hm.2]
    exact ih acc (fun x hx => h x (List.mem_cons_of_mem m hx))

/-- A result message replaces the snapshot with its derived metrics. -/
theorem metricsStep_result (acc : SessionMetrics) (r : StreamMessage)
    (h : r.type = "result") :
    Session.metricsStep acc r = metricsFromMessage r := by
  have hsys : ¬(r.type = "system" ∧ r.subtype = "init" ∧ r.sessionID ≠ "") := by
    rintro ⟨hs, -, -⟩
    rw [h] at hs
    exact absurd hs (by decide)
  simp [Session.metricsStep, h, hsys]

/-- A system-init message observed before any result. -/
def initOnlyMsg : StreamMessage :=
  { type := "system", subtype := "init", sessionID := "abc", model := "sonnet" }

/-- A result message with distinctive metrics fields. -/
def resultMsgA : StreamMessage :=
  { type := "result", sessionID := "s1", model := "m1", numTurns := 3,
    costUSD := 1, totalCost := 2, durationMS := 10, durationAPIMS := 5,
    usage := some { inputTokens := 100, outputTokens := 50 } }

/-- A second system-init message arriving after a result. -/
def lateInitMsg : StreamMessage :=
  { type := "system", subtype := "init", sessionID := "other", model := "m2" }

/-- C8 is false as stated: the reader loop (part_001:309-314) also copies the
session id and model out of a `"system"/"init"` message into the metrics
snapshot, so `CurrentMetrics` is not zero before the first result (first
conjunct pair), and a later init message overwrites the `SessionID`/`Model`
of the most recent result's metrics (second conjunct pair). -/
theorem CurrentMetrics_claim_false :
    (initOnlyMsg.type ≠ "result" ∧
      Session.CurrentMetrics [initOnlyMsg] ≠ ({} : SessionMetrics)) ∧
    (resultMsgA.type = "result" ∧
      Session.CurrentMetrics [resultMsgA, lateInitMsg]
        ≠ metricsFromMessage resultMsgA) := by
  refine ⟨⟨by decide, by decide⟩, ⟨rfl, by decide⟩⟩

/-- C8 (amended): `CurrentMetrics` returns the zero-value `SessionMetrics`
before the reader task has observed any result message or any id-bearing
system-init message; after one or more results it returns exactly the
metrics derived from the most recent result message, provided no id-bearing
system-init message has arrived since (such a message would overwrite the
snapshot's session id and model). -/
theorem CurrentMetrics_latest_result (msgs pre post : List StreamMessage)
    (r : StreamMessage) :
    ((∀ m ∈ msgs, m.type ≠ "result" ∧
        ¬(m.type = "system" ∧ m.subtype = "init" ∧ m.sessionID ≠ "")) →
      Session.CurrentMetrics msgs = {}) ∧
    (r.type = "result" →
      (∀ m ∈ post, m.type ≠ "result" ∧
        ¬(m.type = "system" ∧ m.subtype = "init" ∧ m.sessionID ≠ "")) →
      Session.CurrentMetrics (pre ++ r :: post) = metricsFromMessage r) := by
  constructor
  · intro h
    exact foldl_metricsStep_neutral msgs {} h
  · intro hr hpost
    rw [Session.CurrentMetrics, List.foldl_append, List.foldl_cons,
      metricsStep_result _ r hr]
    exact foldl_metricsStep_neutral post (metricsFromMessage r) hpost

/-- Witness: the amended C8 applied at concrete inputs — an init-then-result
stream where the snapshot equals the result's metrics, and the empty stream
where it is zero. -/
theorem CurrentMetrics_latest_result_witness :
    Session.CurrentMetrics [] = ({} : SessionMetrics) ∧
    Session.CurrentMetrics [initOnlyMsg, resultMsgA]
      = metricsFromMessage resultMsgA :=
  ⟨(CurrentMetrics_latest_result [] [] [] {}).1 (by simp),
   (CurrentMetrics_latest_result [] [initOnlyMsg] [] resultMsgA).2 rfl (by simp)⟩

/-! ### C3 and C7: Launcher lifecycle -/

/-- The externally determined outcomes of one `Start` call: whether
`exec.LookPath` finds the binary, whether `cmd.Start()` fails (with a cause),
and the spawned process id. -/
structure StartOutcome where
  binaryFound : Bool := true
  spawnErr : Option String := none
  pid : Int := 0

/-- The launcher state (launcher.go:46-58) as observed by the lifecycle
methods: `hasCmd`/`hasProcess` model `l.cmd != nil` / `l.cmd.Process != nil`;
`processState` models `exec.Cmd.ProcessState`, set by the first successful
`cmd.Wait` to the exit code; `doneCloseCount` counts closes of the `done`
channel; `exitFired` records the exit codes passed to the `OnExit` hook.
Defaults are the `NewLauncher` zero state (launcher.go:63-67). -/
structure LauncherState where
  started : Bool := false
  hasCmd : Bool := false
  hasProcess : Bool := false
  pid : Int := 0
  processState : Option Int := none
  doneClosed : Bool := false
  doneCloseCount : Nat := 0
  tempFiles : List String := []
  stderrBuf : String := ""
  exitFired : List Int := []
deriving DecidableEq

/-- Embeds `NewLauncher` (launcher.go:63-67). -/
def NewLauncher : LauncherState := {}

/-- Embeds `Launcher.Start` (launcher.go:261-361) over a `StartOutcome`
oracle: the `started` guard is checked first, before any mutation; a LookPath
failure returns before the command exists; a spawn failure leaves a command
but no process handle; success sets `started` and the process handle. The
argument/environment construction, MCP temp file, pipes and the `OnStart`
hook do not affect the lifecycle state and are not modelled here. -/
def Launcher.start (l : LauncherState) (ext : StartOutcome) :
    LauncherState × Option GoError :=
  if l.started = true then (l, some GoError.alreadyStarted)
  else if ext.binaryFound = false then (l, some GoError.cliNotFound)
  else
    let l := { l with hasCmd := true }
    match ext.spawnErr with
    | some cause => (l, some (GoError.startError cause))
    | none => ({ l with started := true, hasProcess := true, pid := ext.pid }, none)

/-- The guarded close of the `done` channel (launcher.go:459-464):
`select { case <-l.done: default: close(l.done) }`. -/
def closeDoneOnce (l : LauncherState) : LauncherState :=
  if l.doneClosed then l
  else { l with doneClosed := true, doneCloseCount := l.doneCloseCount + 1 }

/-- Embeds `Launcher.Wait` (launcher.go:443-490). The first branch is the
first completed wait: `cmd.Wait` returns the process outcome (an exit-status
error exactly when the code is non-zero), temp files are removed, the done
channel is closed once, `OnExit` fires with the exit code, and a non-zero
exit is wrapped into an `ExitError` with the captured stderr. The second
branch models a wait after `ProcessState` is already set: per the Go standard
library, `cmd.Wait` then returns the "exec: Wait was already called" error,
which is not an `*exec.ExitError`, so the computed exit code is 0, `OnExit`
fires again with 0, and the error is returned unwrapped. -/
def Launcher.wait (l : LauncherState) (procExit : Int) :
    LauncherState × Option GoError :=
  if l.started = false then (l, some GoError.notStarted)
  else
    match l.processState with
    | none =>
      let l := { l with processState := some procExit, tempFiles := [] }
      let l := closeDoneOnce l
      let l := { l with exitFired := l.exitFired ++ [procExit] }
      if procExit ≠ 0 then (l, some (GoError.exitError procExit l.stderrBuf))
      else (l, none)
    | some _ =>
      let l := { l with tempFiles := [] }
      let l := closeDoneOnce l
      let l := { l with exitFired := l.exitFired ++ [0] }
      (l, some GoError.waitAlreadyCalled)

/-- Embeds `Launcher.Interrupt` (launcher.go:496-505): the signal delivery
itself is external and not observed. -/
def Launcher.interrupt (l : LauncherState) : Option GoError :=
  if l.started = false ∨ l.hasProcess = false then some GoError.notStarted
  else none

/-- Embeds `Launcher.Kill` (launcher.go:511-520). -/
def Launcher.kill (l : LauncherState) : Option GoError :=
  if l.started = false ∨ l.hasProcess = false then some GoError.notStarted
  else none

/-- Embeds `Launcher.PID` (launcher.go:539-547): 0 is the documented
"hasn't started" sentinel. -/
def Launcher.PID (l : LauncherState) : Int :=
  if l.hasCmd = true ∧ l.hasProcess = true then l.pid else 0

/-- C7: before `Start` has succeeded, `Wait`, `Interrupt` and `Kill` fail
with the "not started" sentinel and `PID` reports its documented not-started
value 0; after `Start` has succeeded, a second `Start` fails with the
"already started" sentinel and returns the state unchanged (the guard runs
before any mutation); and a failed `Start` never creates a process handle or
marks the launcher started, so the "not started" behaviour persists. -/
theorem launcher_lifecycle_guards (l : LauncherState) (ext : StartOutcome)
    (code : Int) :
    (l.started = false →
      Launcher.wait l code = (l, some GoError.notStarted) ∧
      Launcher.interrupt l = some GoError.notStarted ∧
      Launcher.kill l = some GoError.notStarted) ∧
    (l.hasProcess = false → Launcher.PID l = 0) ∧
    (l.started = true → Launcher.start l ext = (l, some GoError.alreadyStarted)) ∧
    (l.started = false → (Launcher.start l ext).2 ≠ none →
      (Launcher.start l ext).1.hasProcess = l.hasProcess ∧
      (Launcher.start l ext).1.started = false) := by
  refine ⟨?_, ?_, ?_, ?_⟩
  · intro h
    refine ⟨?_, ?_, ?_⟩
    · simp [Launcher.wait, h]
    · simp [Launcher.interrupt, h]
    · simp [Launcher.kill, h]
  · intro h
    simp [Launcher.PID, h]
  · intro h
    simp [Launcher.start, h]
  · intro h hfail
    cases hb : ext.binaryFound with
    | false => simp [Launcher.start, h, hb]
    | true =>
      cases hs : ext.spawnErr with
      | some cause => simp [Launcher.start, h, hb, hs]
      | none => simp [Launcher.start, h, hb, hs] at hfail

/-- A launcher on which `Start` has succeeded (process id 7). -/
def startedLauncher : LauncherState := (Launcher.start NewLauncher { pid := 7 }).1

/-- Witness: C7 applied at concrete states — the fresh launcher rejects
`Wait`/`Interrupt`/`Kill` and reports pid 0, and the started launcher rejects
a second `Start` unchanged. -/
theorem launcher_lifecycle_guards_witness :
    (Launcher.wait NewLauncher 0 = (NewLauncher, some GoError.notStarted) ∧
     Launcher.interrupt NewLauncher = some GoError.notStarted ∧
     Launcher.kill NewLauncher = some GoError.notStarted) ∧
    Launcher.PID NewLauncher = 0 ∧
    Launcher.start startedLauncher {} = (startedLauncher, some GoError.alreadyStarted) :=
  ⟨(launcher_lifecycle_guards NewLauncher {} 0).1 (by decide),
   (launcher_lifecycle_guards NewLauncher {} 0).2.1 (by decide),
   (launcher_lifecycle_guards startedLauncher {} 0).2.2.1 (by decide)⟩

/-- The outcome of the first `Wait` on the started launcher (exit code 0). -/
def waitedOnce : LauncherState × Option GoError := Launcher.wait startedLauncher 0

/-- The outcome of a second `Wait` after the first completed. -/
def waitedTwice : LauncherState × Option GoError := Launcher.wait waitedOnce.1 0

/-- C3 is false as stated: the second `Wait` is safe and the done channel is
closed exactly once (last conjunct), but the second call returns the
"exec: Wait was already called" error where the first returned nil — not the
same outcome — and `OnExit` fires once per call, twice across both
(`exitFired = [0, 0]`). -/
theorem Wait_second_call_claim_false :
    waitedOnce.2 = none ∧
    waitedTwice.2 = some GoError.waitAlreadyCalled ∧
    waitedTwice.1.exitFired = [0, 0] ∧
    waitedTwice.1.doneCloseCount = 1 := by
  refine ⟨by decide, by decide, by decide, by decide⟩

/-- C3 (amended): a second `Wait` after a first completed `Wait` on a started
launcher is safe (the model is a total function — no panic) and does not
close the internal done channel again, so it is closed exactly once across
both calls; but the second call returns the distinct "wait already called"
error rather than the first call's outcome, and fires the `OnExit` hook once
per call (with code 0 the second time), so the hook fires twice across both
calls. -/
theorem Wait_twice_behavior (l : LauncherState) (code code' c : Int) :
    (l.started = true → l.processState = none → l.doneClosed = false →
      ((Launcher.wait l code).1.doneCloseCount = l.doneCloseCount + 1 ∧
       (Launcher.wait l code).1.doneClosed = true ∧
       (Launcher.wait l code).1.exitFired = l.exitFired ++ [code] ∧
       (Launcher.wait l code).2
          = (if code ≠ 0 then some (GoError.exitError code l.stderrBuf)
             else none))) ∧
    (l.started = true → l.processState = some c →
      ((Launcher.wait l code').2 = some GoError.waitAlreadyCalled ∧
       (Launcher.wait l code').1.doneClosed = true ∧
       (Launcher.wait l code').1.doneCloseCount
          = (if l.doneClosed then l.doneCloseCount else l.doneCloseCount + 1) ∧
       (Launcher.wait l code').1.exitFired = l.exitFired ++ [0])) := by
  constructor
  · intro h hps hdc
    by_cases hcode : code ≠ 0
    · simp [Launcher.wait, h, hps, closeDoneOnce, hdc, hcode]
    · simp [Launcher.wait, h, hps, closeDoneOnce, hdc, hcode]
  · intro h hps
    by_cases hdc : l.doneClosed
    · simp [Launcher.wait, h, hps, closeDoneOnce, hdc]
    · simp [Launcher.wait, h, hps, closeDoneOnce, hdc]

/-- Witness: the amended C3 applied at the concrete started launcher — the
first `Wait` closes done and fires `OnExit` once; the second returns the
"wait already called" error, leaves the close count at one, and fires
`OnExit` again. -/
theorem Wait_twice_behavior_witness :
    ((Launcher.wait startedLauncher 0).1.doneCloseCount
        = startedLauncher.doneCloseCount + 1 ∧
     (Launcher.wait startedLauncher 0).1.doneClosed = true ∧
     (Launcher.wait startedLauncher 0).1.exitFired
        = startedLauncher.exitFired ++ [0] ∧
     (Launcher.wait startedLauncher 0).2
        = (if (0 : Int) ≠ 0 then
            some (GoError.exitError 0 startedLauncher.stderrBuf) else none)) ∧
    ((Launcher.wait waitedOnce.1 0).2 = some GoError.waitAlreadyCalled ∧
     (Launcher.wait waitedOnce.1 0).1.doneClosed = true ∧
     (Launcher.wait waitedOnce.1 0).1.doneCloseCount
        = (if waitedOnce.1.doneClosed then waitedOnce.1.doneCloseCount
           else waitedOnce.1.doneCloseCount + 1) ∧
     (Launcher.wait waitedOnce.1 0).1.exitFired = waitedOnce.1.exitFired ++ [0]) :=
  ⟨(Wait_twice_behavior startedLauncher 0 0 0).1 (by decide) (by decide) (by decide),
   (Wait_twice_behavior waitedOnce.1 0 0 0).2 (by decide) (by decide)⟩
